import Mathlib

/-!
Verification of the account-linking core of a Telegram-to-Mastodon bridge
(`src/mastodon.rs`, `src/cmd.rs`).

The development shallowly embeds:
* the session codec (`LoginUser::serialize` / `LoginUser::deserialize`,
  which delegate to `serde_json` on the `mastodon_async::data::Data`
  record of five string fields, serialized in declaration order with
  `serde_json`'s string-escaping rules);
* the credential store (`save_login_user` / `load_login_user` /
  `delete_login_user`, single-row SQL statements keyed by
  `tg_user_id.0 as i64`), modelled as a map from `i64` keys to stored
  blobs;
* the authorization flow (`auth_step_1` / `auth_step_2` / `revoke`),
  with the remote instance's responses passed in as explicit
  parameters, since they arrive over the network;
* the posting facade (`LoginUser::post_status`, `LoginUser::domain`).
-/

namespace TgMastodonSync

/-! ## Session codec: serde_json string escaping

`LoginUser::serialize` is `json::to_string(&self.inst.data)`.  The
`Data` record consists of five `Cow<str>` fields (`base`, `client_id`,
`client_secret`, `redirect`, `token`), so `serde_json` emits a flat JSON
object with those keys in declaration order, escaping `"` and `\`, using
the short escapes for the five named control characters and `\u00XX`
(lowercase hex) for the remaining control characters, and emitting every
other character verbatim. -/

/-- Lowercase hex digit, as in serde_json's `HEX_DIGITS` table. -/
def hexDigit (n : Nat) : Char :=
  if n < 10 then Char.ofNat (48 + n) else Char.ofNat (87 + n)

/-- Value of a hex digit accepted when reading a `\uXXXX` escape. -/
def hexVal (c : Char) : Option Nat :=
  if 48 ≤ c.toNat ∧ c.toNat ≤ 57 then some (c.toNat - 48)
  else if 97 ≤ c.toNat ∧ c.toNat ≤ 102 then some (c.toNat - 87)
  else if 65 ≤ c.toNat ∧ c.toNat ≤ 70 then some (c.toNat - 55)
  else none

/-- serde_json's escaping of one character inside a JSON string. -/
def escapeChar (c : Char) : List Char :=
  if c = '"' then ['\\', '"']
  else if c = '\\' then ['\\', '\\']
  else if c = '\x08' then ['\\', 'b']
  else if c = '\t' then ['\\', 't']
  else if c = '\n' then ['\\', 'n']
  else if c = '\x0c' then ['\\', 'f']
  else if c = '\r' then ['\\', 'r']
  else if c.toNat < 32 then
    ['\\', 'u', '0', '0', hexDigit (c.toNat / 16), hexDigit (c.toNat % 16)]
  else [c]

/-- Escaping of a whole string body (no surrounding quotes). -/
def escapeList : List Char → List Char
  | [] => []
  | c :: cs => escapeChar c ++ escapeList cs

/-- JSON string-body reader: consumes characters up to and including the
closing unescaped `"`, resolving escapes; returns the decoded body and
the remaining input, or `none` on malformed input. -/
def parseStr : List Char → Option (List Char × List Char)
  | [] => none
  | c :: cs =>
    if c = '"' then some ([], cs)
    else if c = '\\' then
      match cs with
      | [] => none
      | e :: cs2 =>
        if e = '"' then (parseStr cs2).map (fun p => ('"' :: p.1, p.2))
        else if e = '\\' then (parseStr cs2).map (fun p => ('\\' :: p.1, p.2))
        else if e = '/' then (parseStr cs2).map (fun p => ('/' :: p.1, p.2))
        else if e = 'b' then (parseStr cs2).map (fun p => ('\x08' :: p.1, p.2))
        else if e = 'f' then (parseStr cs2).map (fun p => ('\x0c' :: p.1, p.2))
        else if e = 'n' then (parseStr cs2).map (fun p => ('\n' :: p.1, p.2))
        else if e = 'r' then (parseStr cs2).map (fun p => ('\r' :: p.1, p.2))
        else if e = 't' then (parseStr cs2).map (fun p => ('\t' :: p.1, p.2))
        else if e = 'u' then
          match cs2 with
          | h1 :: h2 :: h3 :: h4 :: cs3 =>
            match hexVal h1, hexVal h2, hexVal h3, hexVal h4 with
            | some a, some b, some c2, some d =>
              (parseStr cs3).map
                (fun p => (Char.ofNat (4096 * a + 256 * b + 16 * c2 + d) :: p.1, p.2))
            | _, _, _, _ => none
          | _ => none
        else none
    else (parseStr cs).map (fun p => (c :: p.1, p.2))

/-- Consume an expected literal prefix. -/
def expect : List Char → List Char → Option (List Char)
  | [], rest => some rest
  | _ :: _, [] => none
  | p :: ps, c :: cs => if c = p then expect ps cs else none

/-! ## Data model -/

/-- `mastodon_async::data::Data`: the instance connection data carried by
a live `Mastodon` client, with fields in Rust declaration order. -/
structure Data where
  base : String
  client_id : String
  client_secret : String
  redirect : String
  token : String
deriving DecidableEq

/-- serde_json's canonical rendering of a `Data` value: a flat object with
the five fields in declaration order, each value a quoted escaped string. -/
def encodeData (d : Data) : List Char :=
  "\x7b\"base\":\"".data ++ escapeList d.base.data ++
    '"' :: (",\"client_id\":\"".data ++ escapeList d.client_id.data ++
    '"' :: (",\"client_secret\":\"".data ++ escapeList d.client_secret.data ++
    '"' :: (",\"redirect\":\"".data ++ escapeList d.redirect.data ++
    '"' :: (",\"token\":\"".data ++ escapeList d.token.data ++
    '"' :: ['\x7d']))))

/-- `serde_json::from_str::<Data>` on the canonical rendering: reads the
object shape back field by field; `none` on malformed input. -/
def decodeData (l : List Char) : Option Data := do
  let r0 ← expect "\x7b\"base\":\"".data l
  let (b, r1) ← parseStr r0
  let r2 ← expect ",\"client_id\":\"".data r1
  let (ci, r3) ← parseStr r2
  let r4 ← expect ",\"client_secret\":\"".data r3
  let (cs, r5) ← parseStr r4
  let r6 ← expect ",\"redirect\":\"".data r5
  let (rd, r7) ← parseStr r6
  let r8 ← expect ",\"token\":\"".data r7
  let (tk, r9) ← parseStr r8
  if r9 = ['\x7d'] then
    some ⟨⟨b⟩, ⟨ci⟩, ⟨cs⟩, ⟨rd⟩, ⟨tk⟩⟩
  else none

/-- `teloxide::types::UserId`: a `u64` chat-user identifier. -/
def UserId := { n : Nat // n < 2 ^ 64 }

instance : DecidableEq UserId := Subtype.instDecidableEq

/-- `LoginUser`: a live linked session, `Mastodon` instance data plus the
owning chat user. -/
structure LoginUser where
  inst : Data
  tg_user_id : UserId

/-- `LoginUser::domain`: reads `&self.inst.data.base`, no network call. -/
def LoginUser.domain (u : LoginUser) : String := u.inst.base

/-- `LoginUser::serialize`: `json::to_string(&self.inst.data)` — only the
connection data is serialized, never `tg_user_id`. -/
def LoginUser.serialize (u : LoginUser) : String := ⟨encodeData u.inst⟩

/-- `LoginUser::deserialize`: parses the blob as `Data` and attaches the
separately supplied `tg_user_id`; `none` models the `json` error. -/
def LoginUser.deserialize (input : String) (tg_user_id : UserId) : Option LoginUser :=
  (decodeData input.data).map fun d => ⟨d, tg_user_id⟩

/-! ## Credential store

The SQL statements in `save_login_user` / `load_login_user` /
`delete_login_user` are single-row operations on the `login_users`
table keyed by `tg_user_id.0 as i64`.  The table is modelled as a map
from `i64` keys (`Int` values produced by the cast) to stored blobs. -/

/-- The `login_users` table: at most one blob per `i64` key. -/
def Store := Int → Option String

/-- The Rust cast `tg_user_id.0 as i64`: wrapping reinterpretation of a
`u64` as a signed 64-bit integer. -/
def storageKey (id : UserId) : Int :=
  if id.val < 2 ^ 63 then (id.val : Int) else (id.val : Int) - 2 ^ 64

/-- Error taxonomy of the store and flow operations (spec §7). -/
inductive MErr where
  | notFound
  | corruptData
  | registrationFailed
  | authExchangeFailed
  | postRejected
deriving DecidableEq

/-- `save_login_user`: `INSERT OR REPLACE INTO login_users` of the
serialized blob under the cast key. -/
def save_login_user (tg_user_id : UserId) (login_user : LoginUser) (st : Store) : Store :=
  fun k => if k = storageKey tg_user_id then some login_user.serialize else st k

/-- `load_login_user`: `SELECT` of the row under the cast key
(`fetch_one` errors when no row exists), then `LoginUser::deserialize`.
The store is returned unchanged: the operation only reads. -/
def load_login_user (tg_user_id : UserId) (st : Store) :
    Except MErr LoginUser × Store :=
  match st (storageKey tg_user_id) with
  | none => (.error .notFound, st)
  | some blob =>
    match LoginUser.deserialize blob tg_user_id with
    | none => (.error .corruptData, st)
    | some u => (.ok u, st)

/-- `delete_login_user`: `DELETE FROM login_users` under the cast key;
deleting an absent row is a no-op. -/
def delete_login_user (tg_user_id : UserId) (st : Store) : Store :=
  fun k => if k = storageKey tg_user_id then none else st k

/-! ## Authorization flow

The remote instance's responses are network inputs, so they are passed
as explicit parameters. -/

/-- `mastodon_async::registration::Registered`: result of building a
client registration; the authorization URL may be absent. -/
structure Registered where
  domain : String
  client_id : String
  client_secret : String
  url : Option String

/-- The remote instance's reply to the client-registration request made
by `Registration::build`. -/
inductive RegResponse where
  | rejected
  | accepted (client_id client_secret : String) (url : Option String)

/-- `Registered::authorize_url`: errors when the registration carries no
authorization URL. -/
def authorize_url (r : Registered) : Except MErr String :=
  match r.url with
  | none => .error .registrationFailed
  | some u => .ok u

/-- `Client::auth_step_1`: builds a registration at `domain` (error when
the instance rejects it), then eagerly checks `authorize_url` so the URL
is known present before the `Registered` is handed out. -/
def auth_step_1 (domain : String) (resp : RegResponse) : Except MErr Registered :=
  match resp with
  | .rejected => .error .registrationFailed
  | .accepted cid cs url =>
    let registration : Registered := ⟨domain, cid, cs, url⟩
    match authorize_url registration with
    | .error e => .error e
    | .ok _ => .ok registration

/-- `Client::auth_step_2`: exchanges the auth code via `reg.complete`
(the remote's verdict is the `exchange` parameter), builds a `LoginUser`
owned by `tg_user_id`, saves it, and returns it.  On remote rejection
nothing is written. -/
def auth_step_2 (reg : Registered) (tg_user_id : UserId) (auth_code : String)
    (exchange : Registered → String → Except Unit Data) (st : Store) :
    Except MErr LoginUser × Store :=
  match exchange reg auth_code with
  | .error _ => (.error .authExchangeFailed, st)
  | .ok data =>
    let login_user : LoginUser := ⟨data, tg_user_id⟩
    (.ok login_user, save_login_user tg_user_id login_user st)

/-- `Client::revoke`: deletes the caller's stored credential row; the
remote instance is not contacted (no remote parameter exists). -/
def revoke (login_user : LoginUser) (st : Store) : Store :=
  delete_login_user login_user.tg_user_id st

/-! ## Posting facade -/

/-- `mastodon_async::Visibility` (the variants used here). -/
inductive Visibility where
  | pub
  | unlisted
  | priv
  | direct
deriving DecidableEq

/-- Status language tag; the source always uses `Language::Eng`. -/
inductive Lang where
  | eng
deriving DecidableEq

/-- `NewStatus` as assembled by the `StatusBuilder` chain in
`post_status`: text, visibility and language all set. -/
structure NewStatus where
  status : Option String
  visibility : Option Visibility
  language : Option Lang
deriving DecidableEq

/-- The `StatusBuilder::new().status(text).visibility(Public)
.language(Eng).build()` chain; `build` succeeds because `status` is set. -/
def build_status (text : String) : NewStatus :=
  ⟨some text, some .pub, some .eng⟩

/-- The remote instance's reply to `new_status`: the posted status'
canonical URL is optional. -/
inductive PostResponse where
  | rejected
  | accepted (url : Option String)

/-- `LoginUser::post_status`: builds the status, submits it (the remote
verdict is the `remote` parameter), and returns the URL, substituting
the literal placeholder when the accepted response carries none. -/
def post_status (_u : LoginUser) (text : String)
    (remote : NewStatus → PostResponse) : Except MErr String :=
  match remote (build_status text) with
  | .rejected => .error .postRejected
  | .accepted url => .ok (url.getD "*invisible*")


theorem hexVal_hexDigit {n : Nat} (h : n < 16) : hexVal (hexDigit n) = some n := by
  have key : ∀ m : Fin 16, hexVal (hexDigit m.val) = some m.val := by decide
  exact key ⟨n, h⟩

theorem hexVal_zero : hexVal '0' = some 0 := rfl

theorem expect_append (p rest : List Char) : expect p (p ++ rest) = some rest := by
  induction p with
  | nil => rfl
  | cons c cs ih => simp [expect, ih]

theorem parseStr_cons (c : Char) {rest l0 rest0 : List Char}
    (h : parseStr rest = some (l0, rest0)) :
    parseStr (escapeChar c ++ rest) = some (c :: l0, rest0) := by
  by_cases h1 : c = '"'
  · subst h1
    simp only [escapeChar, if_pos rfl, List.cons_append, List.nil_append]
    rw [parseStr.eq_def]
    simp [h]
  by_cases h2 : c = '\\'
  · subst h2
    simp [escapeChar]
    rw [parseStr.eq_def]
    simp [h]
  by_cases hb : c = '\x08'
  · subst hb
    simp [escapeChar]
    rw [parseStr.eq_def]
    simp [h]
  by_cases htb : c = '\t'
  · subst htb
    simp [escapeChar]
    rw [parseStr.eq_def]
    simp [h]
  by_cases hn : c = '\n'
  · subst hn
    simp [escapeChar]
    rw [parseStr.eq_def]
    simp [h]
  by_cases hf : c = '\x0c'
  · subst hf
    simp [escapeChar]
    rw [parseStr.eq_def]
    simp [h]
  by_cases hr : c = '\r'
  · subst hr
    simp [escapeChar]
    rw [parseStr.eq_def]
    simp [h]
  by_cases hu : c.toNat < 32
  · have h16a : c.toNat / 16 < 16 := by omega
    have h16b : c.toNat % 16 < 16 := by omega
    have hc : 4096 * 0 + 256 * 0 + 16 * (c.toNat / 16) + c.toNat % 16 = c.toNat := by omega
    have hc2 : 16 * (c.toNat / 16) + c.toNat % 16 = c.toNat := by omega
    simp only [escapeChar, if_neg h1, if_neg h2, if_neg hb, if_neg htb, if_neg hn,
      if_neg hf, if_neg hr, if_pos hu, List.cons_append, List.nil_append]
    rw [parseStr.eq_def]
    simp [hexVal_hexDigit h16a, hexVal_hexDigit h16b, hexVal_zero, h, hc, hc2,
      Char.ofNat_toNat]
  · simp only [escapeChar, if_neg h1, if_neg h2, if_neg hb, if_neg htb, if_neg hn,
      if_neg hf, if_neg hr, if_neg hu, List.cons_append, List.nil_append]
    rw [parseStr.eq_def]
    simp [h1, h2, h]

theorem parseStr_escapeList (l rest : List Char) :
    parseStr (escapeList l ++ '"' :: rest) = some (l, rest) := by
  induction l with
  | nil =>
    simp only [escapeList, List.nil_append]
    rw [parseStr.eq_def]
    simp
  | cons c cs ih =>
    simp only [escapeList, List.append_assoc]
    exact parseStr_cons c ih

theorem decodeData_encodeData (d : Data) : decodeData (encodeData d) = some d := by
  obtain ⟨⟨b⟩, ⟨ci⟩, ⟨cs⟩, ⟨rd⟩, ⟨tk⟩⟩ := d
  simp [decodeData, encodeData, expect, parseStr_escapeList]

/-! ## Shared facts about the codec and store -/

theorem deserialize_serialize (u : LoginUser) (id : UserId) :
    LoginUser.deserialize u.serialize id = some ⟨u.inst, id⟩ := by
  simp [LoginUser.deserialize, LoginUser.serialize, decodeData_encodeData]

theorem load_after_save (id : UserId) (u : LoginUser) (st : Store) :
    load_login_user id (save_login_user id u st)
      = (.ok ⟨u.inst, id⟩, save_login_user id u st) := by
  simp [load_login_user, save_login_user, deserialize_serialize u id]

theorem load_notFound_iff (id : UserId) (st : Store) :
    (load_login_user id st).1 = .error .notFound ↔ st (storageKey id) = none := by
  cases h : st (storageKey id) with
  | none => simp [load_login_user, h]
  | some blob =>
    cases hd : LoginUser.deserialize blob id with
    | none => simp [load_login_user, h, hd]
    | some u => simp [load_login_user, h, hd]



/-- C1: Session-codec round-trip.  Decoding the encoded form of a session
`u` with its own id yields `u` back exactly; with any id `id`, it yields a
session with the same connection data, hence the same `domain` and the
same posting behavior, owned by `id`. -/
theorem c1_codec_round_trip (u : LoginUser) (id : UserId) :
    LoginUser.deserialize u.serialize u.tg_user_id = some u ∧
    LoginUser.deserialize u.serialize id = some ⟨u.inst, id⟩ ∧
    (LoginUser.mk u.inst id).domain = u.domain ∧
    ∀ text remote, post_status ⟨u.inst, id⟩ text remote = post_status u text remote := by
  obtain ⟨d, uid⟩ := u
  exact ⟨deserialize_serialize ⟨d, uid⟩ uid, deserialize_serialize ⟨d, uid⟩ id,
    rfl, fun _ _ => rfl⟩

/-- C2: Missing-URL fail-fast.  If the remote registration response omits
the authorization URL (or rejects registration outright), `auth_step_1`
returns `RegistrationFailed`, never a `Registered`; conversely every
`Registered` it does return carries a URL. -/
theorem c2_missing_url_fail_fast (domain : String) (resp : RegResponse) :
    (∀ cid cs, resp = .accepted cid cs none →
      auth_step_1 domain resp = .error .registrationFailed) ∧
    (resp = .rejected → auth_step_1 domain resp = .error .registrationFailed) ∧
    (∀ reg, auth_step_1 domain resp = .ok reg → reg.url.isSome) := by
  refine ⟨fun cid cs h => by subst h; rfl, fun h => by subst h; rfl, fun reg h => ?_⟩
  cases resp with
  | rejected => simp [auth_step_1] at h
  | accepted cid cs url =>
    cases url with
    | none => simp [auth_step_1, authorize_url] at h
    | some u2 =>
      obtain rfl : Registered.mk domain cid cs (some u2) = reg := by
        simpa [auth_step_1, authorize_url] using h
      rfl

/-- C3: Insert-or-replace save.  Saving `u1` then `u2` under `id` and
loading yields the session with `u2`'s connection data (exactly `u2`
when `u2` is owned by `id`), and never `u1`'s data when they differ. -/
theorem c3_save_insert_or_replace (id : UserId) (u1 u2 : LoginUser) (st : Store) :
    (load_login_user id (save_login_user id u2 (save_login_user id u1 st))).1
      = .ok ⟨u2.inst, id⟩ ∧
    (u2.tg_user_id = id →
      (load_login_user id (save_login_user id u2 (save_login_user id u1 st))).1
        = .ok u2) ∧
    (u1.inst ≠ u2.inst →
      (load_login_user id (save_login_user id u2 (save_login_user id u1 st))).1
        ≠ .ok ⟨u1.inst, id⟩) := by
  have h := load_after_save id u2 (save_login_user id u1 st)
  refine ⟨by rw [h], fun hid => ?_, fun hne => ?_⟩
  · rw [h]
    obtain ⟨d2, id2⟩ := u2
    cases hid
    rfl
  · rw [h]
    intro hcontra
    simp only [Prod.fst] at hcontra
    exact hne (by injection hcontra with h2; injection h2 with h3 h4; exact h3.symm)


/-- C4: Load error taxonomy.  `load_login_user` yields NotFound exactly
when no row exists for the id's key, CorruptData exactly when a row
exists whose blob fails to decode, and in every case leaves the store
untouched. -/
theorem c4_load_error_taxonomy (id : UserId) (st : Store) :
    ((load_login_user id st).1 = .error .notFound ↔ st (storageKey id) = none) ∧
    ((load_login_user id st).1 = .error .corruptData ↔
      ∃ blob, st (storageKey id) = some blob ∧ LoginUser.deserialize blob id = none) ∧
    (load_login_user id st).2 = st := by
  refine ⟨load_notFound_iff id st, ?_, ?_⟩
  · cases h : st (storageKey id) with
    | none => simp [load_login_user, h]
    | some blob =>
      cases hd : LoginUser.deserialize blob id with
      | none => simp [load_login_user, h, hd]
      | some u => simp [load_login_user, h, hd]
  · cases h : st (storageKey id) with
    | none => simp [load_login_user, h]
    | some blob =>
      cases hd : LoginUser.deserialize blob id with
      | none => simp [load_login_user, h, hd]
      | some u => simp [load_login_user, h, hd]

/-- C5: Handshake completion persists atomically.  When the remote
exchange rejects the code, `auth_step_2` fails with AuthExchangeFailed
and the store is returned unmodified; when it succeeds with data `d`,
the returned session is exactly `⟨d, id⟩`, it is stored under the id's
key (and loadable), and no other row changes. -/
theorem c5_handshake_persistence (reg : Registered) (id : UserId) (code : String)
    (exchange : Registered → String → Except Unit Data) (st : Store) :
    (exchange reg code = .error () →
      auth_step_2 reg id code exchange st = (.error .authExchangeFailed, st)) ∧
    ∀ d, exchange reg code = .ok d →
      (auth_step_2 reg id code exchange st).1 = .ok ⟨d, id⟩ ∧
      (auth_step_2 reg id code exchange st).2 (storageKey id)
        = some (LoginUser.serialize ⟨d, id⟩) ∧
      (∀ k, k ≠ storageKey id → (auth_step_2 reg id code exchange st).2 k = st k) ∧
      (load_login_user id (auth_step_2 reg id code exchange st).2).1 = .ok ⟨d, id⟩ := by
  constructor
  · intro h
    simp [auth_step_2, h]
  · intro d h
    refine ⟨by simp [auth_step_2, h], by simp [auth_step_2, h, save_login_user],
      fun k hk => by simp [auth_step_2, h, save_login_user, hk], ?_⟩
    have hl := load_after_save id ⟨d, id⟩ st
    simp [auth_step_2, h, hl]

/-- C6: Invisible-post fallback.  `post_status` submits exactly the
public, English-tagged status built from `text`; an accepted response
with a URL returns that URL, an accepted response without one returns
the literal `*invisible*` (not an error), and only a rejection produces
the PostRejected error. -/
theorem c6_invisible_post_fallback (u : LoginUser) (text : String)
    (remote : NewStatus → PostResponse) :
    build_status text = ⟨some text, some .pub, some .eng⟩ ∧
    (∀ s, remote (build_status text) = .accepted (some s) →
      post_status u text remote = .ok s) ∧
    (remote (build_status text) = .accepted none →
      post_status u text remote = .ok "*invisible*") ∧
    (remote (build_status text) = .rejected →
      post_status u text remote = .error .postRejected) ∧
    ∀ e, post_status u text remote = .error e →
      e = .postRejected ∧ remote (build_status text) = .rejected := by
  refine ⟨rfl, fun s h => by simp [post_status, h], fun h => by simp [post_status, h],
    fun h => by simp [post_status, h], fun e h => ?_⟩
  cases hr : remote (build_status text) with
  | rejected =>
    simp [post_status, hr] at h
    exact ⟨h.symm, rfl⟩
  | accepted url => simp [post_status, hr] at h

/-- C7: Idempotent unlink.  Deleting twice equals deleting once (both are
total, hence error-free), and a load after a delete yields NotFound. -/
theorem c7_idempotent_unlink (id : UserId) (st : Store) :
    delete_login_user id (delete_login_user id st) = delete_login_user id st ∧
    (load_login_user id (delete_login_user id st)).1 = .error .notFound := by
  constructor
  · funext k
    by_cases hk : k = storageKey id <;> simp [delete_login_user, hk]
  · simp [load_login_user, delete_login_user]

/-- C8: Encode excludes the owner key.  Serialization depends only on the
connection data, never on the owning id, and deserialization stamps the
separately supplied id onto the resulting session. -/
theorem c8_encode_excludes_owner (d : Data) (id1 id2 : UserId) (blob : String) :
    LoginUser.serialize ⟨d, id1⟩ = LoginUser.serialize ⟨d, id2⟩ ∧
    ∀ u, LoginUser.deserialize blob id1 = some u → u.tg_user_id = id1 := by
  refine ⟨rfl, fun u h => ?_⟩
  unfold LoginUser.deserialize at h
  cases hd : decodeData blob.data with
  | none => rw [hd] at h; simp at h
  | some dd =>
    rw [hd] at h
    simp at h
    rw [← h]

/-- C9: Revoke touches only the local store.  `revoke` is exactly the
local row deletion for the session's owner (its type takes no remote
response, so no remote call is modelled): the owner's row becomes
absent and every other key is unchanged. -/
theorem c9_revoke_local_only (u : LoginUser) (st : Store) :
    revoke u st = delete_login_user u.tg_user_id st ∧
    revoke u st (storageKey u.tg_user_id) = none ∧
    ∀ k, k ≠ storageKey u.tg_user_id → revoke u st k = st k := by
  refine ⟨rfl, by simp [revoke, delete_login_user],
    fun k hk => by simp [revoke, delete_login_user, hk]⟩

/-- C10: The `u64 → i64` storage-key cast is injective on chat-user ids,
and all three store operations address the row at that same key: save
writes it, delete clears it, and load misses exactly when it is empty. -/
theorem c10_storage_key_cast_identity :
    (∀ a b : UserId, storageKey a = storageKey b ↔ a = b) ∧
    (∀ (id : UserId) (u : LoginUser) (st : Store),
      save_login_user id u st (storageKey id) = some u.serialize) ∧
    (∀ (id : UserId) (st : Store), delete_login_user id st (storageKey id) = none) ∧
    (∀ (id : UserId) (st : Store),
      (load_login_user id st).1 = .error .notFound ↔ st (storageKey id) = none) := by
  refine ⟨fun a b => ⟨fun h => ?_, fun h => by rw [h]⟩,
    fun id u st => by simp [save_login_user],
    fun id st => by simp [delete_login_user],
    fun id st => load_notFound_iff id st⟩
  obtain ⟨av, ha⟩ := a
  obtain ⟨bv, hb⟩ := b
  apply Subtype.ext
  simp only [storageKey] at h
  split_ifs at h <;> simp at h ⊢ <;> omega

/-! ## Concrete instances for the hypothesis-bearing theorems -/

/-- A concrete connection-data record. -/
def sampleData : Data :=
  ⟨"example.social", "client-id", "client-secret", "urn:ietf:wg:oauth:2.0:oob", "token-1"⟩

/-- A second connection-data record, differing from `sampleData`. -/
def sampleData2 : Data :=
  ⟨"other.social", "client-id-2", "client-secret-2", "urn:ietf:wg:oauth:2.0:oob", "token-2"⟩

/-- Chat user 42. -/
def sampleId : UserId := ⟨42, by norm_num⟩

/-- The empty credential table. -/
def sampleStore : Store := fun _ => none

/-- A linked session for chat user 42. -/
def sampleUser : LoginUser := ⟨sampleData, sampleId⟩

/-- A second linked session for chat user 42. -/
def sampleUser2 : LoginUser := ⟨sampleData2, sampleId⟩

/-- A completed registration carrying an authorization URL. -/
def sampleReg : Registered :=
  ⟨"example.social", "client-id", "client-secret",
    some "https://example.social/oauth/authorize"⟩

/-- A remote token endpoint that rejects every code. -/
def sampleExchangeFail : Registered → String → Except Unit Data := fun _ _ => .error ()

/-- A remote token endpoint that accepts and returns `sampleData`. -/
def sampleExchangeOk : Registered → String → Except Unit Data := fun _ _ => .ok sampleData

/-- A publish endpoint that accepts and returns a canonical URL. -/
def sampleRemoteUrl : NewStatus → PostResponse :=
  fun _ => .accepted (some "https://example.social/@user/1")

/-- A publish endpoint that accepts but returns no URL. -/
def sampleRemoteNoUrl : NewStatus → PostResponse := fun _ => .accepted none

/-- A publish endpoint that rejects every status. -/
def sampleRemoteReject : NewStatus → PostResponse := fun _ => .rejected

/-- Witness for C2 at a concrete registration response without a URL. -/
theorem c2_missing_url_fail_fast_witness :
    auth_step_1 "example.social" (RegResponse.accepted "client-id" "client-secret" none)
      = .error .registrationFailed :=
  (c2_missing_url_fail_fast "example.social"
    (RegResponse.accepted "client-id" "client-secret" none)).1 "client-id" "client-secret" rfl

/-- Witness for C3 at user 42 with two concrete distinct sessions. -/
theorem c3_save_insert_or_replace_witness :
    (load_login_user sampleId (save_login_user sampleId sampleUser2
        (save_login_user sampleId sampleUser sampleStore))).1 = .ok sampleUser2 ∧
    (load_login_user sampleId (save_login_user sampleId sampleUser2
        (save_login_user sampleId sampleUser sampleStore))).1
      ≠ .ok ⟨sampleUser.inst, sampleId⟩ :=
  ⟨(c3_save_insert_or_replace sampleId sampleUser sampleUser2 sampleStore).2.1 rfl,
   (c3_save_insert_or_replace sampleId sampleUser sampleUser2 sampleStore).2.2 (by decide)⟩

/-- Witness for C5 at concrete failing and succeeding exchanges. -/
theorem c5_handshake_persistence_witness :
    auth_step_2 sampleReg sampleId "auth-code" sampleExchangeFail sampleStore
      = (.error .authExchangeFailed, sampleStore) ∧
    (auth_step_2 sampleReg sampleId "auth-code" sampleExchangeOk sampleStore).1
      = .ok ⟨sampleData, sampleId⟩ ∧
    (load_login_user sampleId
        (auth_step_2 sampleReg sampleId "auth-code" sampleExchangeOk sampleStore).2).1
      = .ok ⟨sampleData, sampleId⟩ :=
  ⟨(c5_handshake_persistence sampleReg sampleId "auth-code" sampleExchangeFail sampleStore).1
      rfl,
   ((c5_handshake_persistence sampleReg sampleId "auth-code" sampleExchangeOk sampleStore).2
      sampleData rfl).1,
   ((c5_handshake_persistence sampleReg sampleId "auth-code" sampleExchangeOk sampleStore).2
      sampleData rfl).2.2.2⟩

/-- Witness for C6 at the three concrete publish responses. -/
theorem c6_invisible_post_fallback_witness :
    post_status sampleUser "hello" sampleRemoteUrl = .ok "https://example.social/@user/1" ∧
    post_status sampleUser "hello" sampleRemoteNoUrl = .ok "*invisible*" ∧
    post_status sampleUser "hello" sampleRemoteReject = .error .postRejected :=
  ⟨(c6_invisible_post_fallback sampleUser "hello" sampleRemoteUrl).2.1
      "https://example.social/@user/1" rfl,
   (c6_invisible_post_fallback sampleUser "hello" sampleRemoteNoUrl).2.2.1 rfl,
   (c6_invisible_post_fallback sampleUser "hello" sampleRemoteReject).2.2.2.1 rfl⟩

/-- Witness for C8: decoding a concrete blob with owner 42 yields a session
owned by 42. -/
theorem c8_encode_excludes_owner_witness :
    (LoginUser.mk sampleData sampleId).tg_user_id = sampleId :=
  (c8_encode_excludes_owner sampleData sampleId sampleId sampleUser.serialize).2
    ⟨sampleData, sampleId⟩
    (by simpa [sampleUser] using deserialize_serialize sampleUser sampleId)

/-- Witness for C9: revoking user 42's session leaves key 7 untouched. -/
theorem c9_revoke_local_only_witness :
    revoke sampleUser sampleStore 7 = sampleStore 7 :=
  (c9_revoke_local_only sampleUser sampleStore).2.2 7 (by decide)

end TgMastodonSync
